import Mathlib

/-!
Shallow embedding of the SVG play-diagram generator of
`src/app.py` (NFL playbook simulator).

The Python code builds the diagram by concatenating string fragments,
each produced by one fixed f-string template with interpolated
parameters.  We embed the document as a `List Svg`, one constructor per
template, carrying exactly the interpolated values; concatenation of
strings corresponds to concatenation of lists, so equality of the
embedded documents implies equality of the rendered strings.
-/

namespace Playbook

/-- One emitted markup fragment.  Each constructor corresponds to one
f-string template of `app.py`, carrying the values interpolated into it:
`header` is the constant `<svg …><defs>…</defs>` preamble,
`field` the constant output of `generate_field_svg`,
`offCircle`/`offRect` the offensive markers, `defTriangle` the defensive
polygon template (all five role groups share it, differing in fill),
`zoneRect` a coverage-zone rectangle, `hotspot` a pulsing circle plus
label, `routeLine` an arrow-terminated route line, `close` the final
`</svg>`. -/
inductive Svg where
  | header : Svg
  | field : Svg
  | offCircle (x y : Int) (fill : String) : Svg
  | offRect (x y : Int) : Svg
  | defTriangle (x y : Int) (fill : String) : Svg
  | zoneRect (x y w h : Int) (color : String) : Svg
  | hotspot (x y : Int) (label : String) : Svg
  | routeLine (x1 y1 x2 y2 : Int) : Svg
  | close : Svg
  deriving DecidableEq

/-- Role-group → positions mapping of one defensive formation
(`base_positions` entries in `generate_defensive_formation_svg`).
Formations without a `SLOT_CB` key store `[]`, mirroring
`positions.get("SLOT_CB", [])`. -/
structure FormationLayout where
  dl : List (Int × Int)
  lb : List (Int × Int)
  cb : List (Int × Int)
  slotCb : List (Int × Int)
  s : List (Int × Int)
  deriving DecidableEq

/-- The `"4-3"` entry of `base_positions`. -/
def layout43 : FormationLayout :=
  { dl := [(155, 135), (185, 135), (215, 135), (245, 135)]
    lb := [(140, 110), (200, 105), (260, 110)]
    cb := [(50, 100), (350, 100)]
    slotCb := []
    s := [(150, 60), (250, 60)] }

/-- The `"3-4"` entry of `base_positions`. -/
def layout34 : FormationLayout :=
  { dl := [(170, 135), (200, 135), (230, 135)]
    lb := [(120, 115), (165, 110), (235, 110), (280, 115)]
    cb := [(50, 100), (350, 100)]
    slotCb := []
    s := [(150, 60), (250, 60)] }

/-- The `"nickel"` entry of `base_positions`. -/
def layoutNickel : FormationLayout :=
  { dl := [(155, 135), (185, 135), (215, 135), (245, 135)]
    lb := [(170, 110), (230, 110)]
    cb := [(50, 100), (350, 100)]
    slotCb := [(100, 105)]
    s := [(150, 50), (250, 50)] }

/-- The `"dime"` entry of `base_positions`. -/
def layoutDime : FormationLayout :=
  { dl := [(155, 135), (185, 135), (215, 135), (245, 135)]
    lb := [(200, 105)]
    cb := [(50, 100), (350, 100)]
    slotCb := [(100, 105), (300, 105)]
    s := [(150, 45), (250, 45)] }

/-- The `base_positions` dict of `generate_defensive_formation_svg`,
as an association list in insertion order. -/
def basePositions : List (String × FormationLayout) :=
  [("4-3", layout43), ("3-4", layout34),
   ("nickel", layoutNickel), ("dime", layoutDime)]

/-- `base_positions.get(formation, base_positions["4-3"])`. -/
def layoutFor (formation : String) : FormationLayout :=
  (basePositions.lookup formation).getD layout43

/-- Coverages of the first adjustment branch (two deep safeties). -/
def twoDeepCoverages : List String :=
  ["cover_2", "cover_2_man", "tampa_2", "cover_4", "cover_6"]

/-- Coverages of the second adjustment branch (single high + SS in box). -/
def singleHighCoverages : List String :=
  ["cover_3", "cover_3_sky", "cover_3_cloud", "cover_1", "cover_1_robber"]

/-- All coverages for which `generate_defensive_formation_svg` overrides
the safety positions. -/
def adjustedCoverages : List String :=
  twoDeepCoverages ++ singleHighCoverages ++ ["cover_0"]

/-- The safety-position adjustment applied after the base-layout lookup
(`positions["S"] = …` branches of `generate_defensive_formation_svg`). -/
def adjustPositions (coverage : String) (positions : FormationLayout) :
    FormationLayout :=
  if coverage ∈ twoDeepCoverages then
    { positions with s := [(120, 40), (280, 40)] }
  else if coverage ∈ singleHighCoverages then
    { positions with s := [(200, 35), (250, 80)] }
  else if coverage = "cover_0" then
    { positions with s := [(180, 95), (220, 95)] }
  else positions

/-- One triangular defensive marker per position, with the role group's
fill colour. -/
def defTriangles (fill : String) (ps : List (Int × Int)) : List Svg :=
  ps.map (fun p => Svg.defTriangle p.1 p.2 fill)

/-- `generate_defensive_formation_svg(formation, coverage)`: look up the
layout (defaulting to 4-3), adjust the safeties by coverage, then draw
DL, LB, CB, SLOT_CB and S markers in that order with the source's fill
colours. -/
def generate_defensive_formation_svg (formation coverage : String) :
    List Svg :=
  let positions := adjustPositions coverage (layoutFor formation)
  defTriangles "#dc143c" positions.dl ++
  defTriangles "#ff6347" positions.lb ++
  defTriangles "#ff4500" positions.cb ++
  defTriangles "#ff4500" positions.slotCb ++
  defTriangles "#ff8c00" positions.s

/-- The `positions` dict of `generate_offensive_formation_svg`, in
insertion order. -/
def offensivePositions : List (String × Int × Int) :=
  [("C", (200, 150)), ("LG", (170, 150)), ("RG", (230, 150)),
   ("LT", (140, 150)), ("RT", (260, 150)), ("QB", (200, 175)),
   ("RB", (200, 200)), ("WR1", (50, 150)), ("WR2", (350, 150)),
   ("TE", (290, 150)), ("SLOT", (100, 150))]

/-- Marker emitted for one offensive position label: receivers, QB, RB
and TE are circles (colour by role), linemen are 16×16 squares drawn at
`(x-8, y-8)`. -/
def offMarker (pos : String) (x y : Int) : Svg :=
  if pos = "WR1" ∨ pos = "WR2" ∨ pos = "SLOT" then
    Svg.offCircle x y "#1e90ff"
  else if pos = "QB" then Svg.offCircle x y "#ffd700"
  else if pos = "RB" then Svg.offCircle x y "#32cd32"
  else if pos = "TE" then Svg.offCircle x y "#1e90ff"
  else Svg.offRect (x - 8) (y - 8)

/-- `generate_offensive_formation_svg(formation="pro")`.  The
`formation` parameter is accepted but unused, exactly as in the
source. -/
def generate_offensive_formation_svg (formation : String) : List Svg :=
  offensivePositions.map (fun p => offMarker p.1 p.2.1 p.2.2)

/-- One shaded coverage zone (`zones` entries in
`generate_coverage_zones_svg`); `ztype` is the `"type"` tag, which is
data-only and not interpolated into the emitted rectangle. -/
structure Zone where
  ztype : String
  x : Int
  y : Int
  w : Int
  h : Int
  color : String
  deriving DecidableEq

/-- The `zones` dict of `generate_coverage_zones_svg`. -/
def zonesTable : List (String × List Zone) :=
  [("cover_0", []),
   ("cover_1",
     [⟨"deep", 50, 0, 300, 60, "rgba(255,165,0,0.3)"⟩]),
   ("cover_2",
     [⟨"deep", 50, 0, 150, 50, "rgba(255,165,0,0.3)"⟩,
      ⟨"deep", 200, 0, 150, 50, "rgba(255,165,0,0.3)"⟩,
      ⟨"flat", 0, 50, 80, 60, "rgba(255,69,0,0.3)"⟩,
      ⟨"flat", 320, 50, 80, 60, "rgba(255,69,0,0.3)"⟩]),
   ("tampa_2",
     [⟨"deep", 50, 0, 120, 50, "rgba(255,165,0,0.3)"⟩,
      ⟨"deep", 170, 0, 60, 70, "rgba(255,140,0,0.3)"⟩,
      ⟨"deep", 230, 0, 120, 50, "rgba(255,165,0,0.3)"⟩]),
   ("cover_3",
     [⟨"deep", 0, 0, 133, 60, "rgba(255,69,0,0.3)"⟩,
      ⟨"deep", 133, 0, 134, 60, "rgba(255,165,0,0.3)"⟩,
      ⟨"deep", 267, 0, 133, 60, "rgba(255,69,0,0.3)"⟩]),
   ("cover_4",
     [⟨"deep", 0, 0, 100, 60, "rgba(255,69,0,0.3)"⟩,
      ⟨"deep", 100, 0, 100, 60, "rgba(255,165,0,0.3)"⟩,
      ⟨"deep", 200, 0, 100, 60, "rgba(255,165,0,0.3)"⟩,
      ⟨"deep", 300, 0, 100, 60, "rgba(255,69,0,0.3)"⟩])]

/-- `generate_coverage_zones_svg(coverage)`: one translucent rectangle
per zone, `zones.get(coverage, [])`. -/
def generate_coverage_zones_svg (coverage : String) : List Svg :=
  ((zonesTable.lookup coverage).getD []).map
    (fun z => Svg.zoneRect z.x z.y z.w z.h z.color)

/-- One soft-spot annotation (`spots` entries in
`generate_soft_spots_svg`). -/
structure Spot where
  x : Int
  y : Int
  label : String
  deriving DecidableEq

/-- The `spots` dict of `generate_soft_spots_svg`. -/
def spotsTable : List (String × List Spot) :=
  [("cover_0", [⟨200, 30, "Deep - no help!"⟩]),
   ("cover_1", [⟨100, 80, "Crossers"⟩, ⟨300, 80, "Crossers"⟩]),
   ("cover_2",
     [⟨200, 25, "Hole Shot"⟩, ⟨70, 15, "Corner"⟩, ⟨330, 15, "Corner"⟩]),
   ("tampa_2", [⟨120, 40, "Seam"⟩, ⟨280, 40, "Seam"⟩]),
   ("cover_3",
     [⟨100, 50, "Seam"⟩, ⟨300, 50, "Seam"⟩,
      ⟨50, 90, "Flat"⟩, ⟨350, 90, "Flat"⟩]),
   ("cover_4",
     [⟨50, 90, "Flat"⟩, ⟨350, 90, "Flat"⟩,
      ⟨150, 85, "Curl"⟩, ⟨250, 85, "Curl"⟩]),
   ("cover_2_man", [⟨200, 75, "Crossers"⟩])]

/-- `generate_soft_spots_svg(coverage)`: one pulsing circle plus label
per spot, `spots.get(coverage, [])`. -/
def generate_soft_spots_svg (coverage : String) : List Svg :=
  ((spotsTable.lookup coverage).getD []).map
    (fun sp => Svg.hotspot sp.x sp.y sp.label)

/-- One route segment (`routes` entries in `generate_route_svg`).
`fr` models the `"from"` key and `dst` the `"to"` key (both Lean
reserved words); `rtype` the `"type"` tag, data-only like
`Zone.ztype`. -/
structure Route where
  fr : Int × Int
  dst : Int × Int
  rtype : String
  deriving DecidableEq

/-- The `routes` dict of `generate_route_svg`. -/
def routesTable : List (String × List Route) :=
  [("four_verticals",
     [⟨(50, 150), (50, 20), "go"⟩, ⟨(100, 150), (130, 20), "seam"⟩,
      ⟨(290, 150), (270, 20), "seam"⟩, ⟨(350, 150), (350, 20), "go"⟩]),
   ("curl_flat",
     [⟨(50, 150), (70, 80), "curl"⟩, ⟨(100, 150), (50, 110), "flat"⟩]),
   ("smash",
     [⟨(50, 150), (60, 110), "hitch"⟩, ⟨(100, 150), (40, 40), "corner"⟩]),
   ("mesh",
     [⟨(50, 150), (250, 110), "cross"⟩, ⟨(350, 150), (150, 110), "cross"⟩]),
   ("levels",
     [⟨(50, 150), (200, 115), "shallow"⟩, ⟨(350, 150), (200, 80), "dig"⟩]),
   ("flood",
     [⟨(50, 150), (30, 20), "clear"⟩, ⟨(100, 150), (60, 50), "corner"⟩,
      ⟨(200, 200), (40, 120), "flat"⟩]),
   ("slant_flat",
     [⟨(50, 150), (120, 100), "slant"⟩, ⟨(100, 150), (50, 120), "flat"⟩])]

/-- `generate_route_svg(concept)`: one arrow-terminated line per route,
`routes.get(concept, [])`. -/
def generate_route_svg (concept : String) : List Svg :=
  ((routesTable.lookup concept).getD []).map
    (fun r => Svg.routeLine r.fr.1 r.fr.2 r.dst.1 r.dst.2)

/-- `generate_play_diagram(formation, coverage, concept=None)`:
preamble with arrowhead defs, then field, zones, soft spots, offensive
formation (always called with the default `"pro"`), defensive
formation; routes are appended only when `concept` is truthy (Python
`if concept:` — `None` and the empty string both skip it); finally
`</svg>`. -/
def generate_play_diagram (formation coverage : String)
    (concept : Option String) : List Svg :=
  let svg := [Svg.header, Svg.field] ++
    generate_coverage_zones_svg coverage ++
    generate_soft_spots_svg coverage ++
    generate_offensive_formation_svg "pro" ++
    generate_defensive_formation_svg formation coverage
  let svg := match concept with
    | some c => if c = "" then svg else svg ++ generate_route_svg c
    | none => svg
  svg ++ [Svg.close]

/-- Recognizer for defensive triangular markers. -/
def isDefMarker : Svg → Bool
  | Svg.defTriangle .. => true
  | _ => false

/-- Recognizer for defensive markers with a given fill colour. -/
def isFillTriangle (fill : String) : Svg → Bool
  | Svg.defTriangle _ _ f => f = fill
  | _ => false

/-- Recognizer for zone-overlay rectangles. -/
def isZoneRect : Svg → Bool
  | Svg.zoneRect .. => true
  | _ => false

/-- Recognizer for hotspot annotations. -/
def isHotspot : Svg → Bool
  | Svg.hotspot .. => true
  | _ => false

/-- Recognizer for route-segment lines. -/
def isRouteLine : Svg → Bool
  | Svg.routeLine .. => true
  | _ => false

/-! ## Helper lemmas -/

lemma adjustPositions_dl (c : String) (p : FormationLayout) :
    (adjustPositions c p).dl = p.dl := by
  unfold adjustPositions; split_ifs <;> rfl

lemma adjustPositions_lb (c : String) (p : FormationLayout) :
    (adjustPositions c p).lb = p.lb := by
  unfold adjustPositions; split_ifs <;> rfl

lemma adjustPositions_cb (c : String) (p : FormationLayout) :
    (adjustPositions c p).cb = p.cb := by
  unfold adjustPositions; split_ifs <;> rfl

lemma adjustPositions_slotCb (c : String) (p : FormationLayout) :
    (adjustPositions c p).slotCb = p.slotCb := by
  unfold adjustPositions; split_ifs <;> rfl

lemma adjustPositions_s_twoDeep {c : String} (p : FormationLayout)
    (h : c ∈ twoDeepCoverages) :
    (adjustPositions c p).s = [(120, 40), (280, 40)] := by
  unfold adjustPositions
  rw [if_pos h]

lemma adjustPositions_s_singleHigh {c : String} (p : FormationLayout)
    (h : c ∈ singleHighCoverages) :
    (adjustPositions c p).s = [(200, 35), (250, 80)] := by
  have h2 : c ∉ twoDeepCoverages := by fin_cases h <;> decide
  unfold adjustPositions
  rw [if_neg h2, if_pos h]

lemma adjustPositions_s_cover0 (p : FormationLayout) :
    (adjustPositions "cover_0" p).s = [(180, 95), (220, 95)] := by
  unfold adjustPositions
  rw [if_neg (by decide), if_neg (by decide), if_pos rfl]

lemma adjustPositions_id {c : String} (p : FormationLayout)
    (h : c ∉ adjustedCoverages) : adjustPositions c p = p := by
  simp [adjustedCoverages, twoDeepCoverages, singleHighCoverages] at h
  obtain ⟨h1, h2, h3, h4, h5, h6, h7, h8, h9, h10, h11⟩ := h
  unfold adjustPositions
  rw [if_neg, if_neg, if_neg h11] <;>
    simp [twoDeepCoverages, singleHighCoverages,
      h1, h2, h3, h4, h5, h6, h7, h8, h9, h10]

lemma lookup_eq_none_of_not_mem {β : Type} {l : List (String × β)} {a : String}
    (h : a ∉ l.map Prod.fst) : l.lookup a = none := by
  induction l with
  | nil => rfl
  | cons x t ih =>
    have h1 : a ≠ x.1 := fun e => h (by simp [e])
    have h2 : a ∉ t.map Prod.fst := fun hm => h (by simp [hm])
    simp [List.lookup, beq_eq_false_iff_ne.mpr h1, ih h2]

lemma zones_empty_of_unknown {c : String} (h : c ∉ zonesTable.map Prod.fst) :
    generate_coverage_zones_svg c = [] := by
  simp [generate_coverage_zones_svg, lookup_eq_none_of_not_mem h]

lemma spots_empty_of_unknown {c : String} (h : c ∉ spotsTable.map Prod.fst) :
    generate_soft_spots_svg c = [] := by
  simp [generate_soft_spots_svg, lookup_eq_none_of_not_mem h]

lemma routes_empty_of_unknown {c : String} (h : c ∉ routesTable.map Prod.fst) :
    generate_route_svg c = [] := by
  simp [generate_route_svg, lookup_eq_none_of_not_mem h]

lemma layoutFor_unknown {f : String} (h : f ∉ basePositions.map Prod.fst) :
    layoutFor f = layout43 := by
  simp [layoutFor, lookup_eq_none_of_not_mem h]

lemma countP_defMarker_routes (c : String) :
    (generate_route_svg c).countP isDefMarker = 0 := by
  simp [generate_route_svg, List.countP_map, Function.comp_def, isDefMarker]

lemma countP_defMarker_diagram (f c : String) (k : Option String) :
    (generate_play_diagram f c k).countP isDefMarker =
      (layoutFor f).dl.length + (layoutFor f).lb.length +
      (layoutFor f).cb.length + (layoutFor f).slotCb.length +
      (adjustPositions c (layoutFor f)).s.length := by
  have base :
      ([Svg.header, Svg.field] ++ generate_coverage_zones_svg c ++
        generate_soft_spots_svg c ++ generate_offensive_formation_svg "pro" ++
        generate_defensive_formation_svg f c).countP isDefMarker =
      (layoutFor f).dl.length + (layoutFor f).lb.length +
      (layoutFor f).cb.length + (layoutFor f).slotCb.length +
      (adjustPositions c (layoutFor f)).s.length := by
    simp [List.countP_append, generate_coverage_zones_svg,
      generate_soft_spots_svg, generate_offensive_formation_svg,
      generate_defensive_formation_svg, defTriangles, offMarker,
      List.countP_map, Function.comp_def, isDefMarker, List.countP_cons,
      adjustPositions_dl, adjustPositions_lb, adjustPositions_cb,
      adjustPositions_slotCb, offensivePositions]
    omega
  cases k with
  | none =>
    simpa [generate_play_diagram, List.countP_append, isDefMarker] using base
  | some cKey =>
    by_cases h : cKey = "" <;>
      simp [generate_play_diagram, h, List.countP_append,
        countP_defMarker_routes, isDefMarker] at base ⊢ <;> omega

lemma field_mem_diagram (f c : String) (k : Option String) :
    Svg.field ∈ generate_play_diagram f c k := by
  cases k with
  | none => simp [generate_play_diagram]
  | some cKey => by_cases h : cKey = "" <;> simp [generate_play_diagram, h]

lemma filter_defTriangles_eq (col : String) (ps : List (Int × Int)) :
    (defTriangles col ps).filter (isFillTriangle col) = defTriangles col ps := by
  induction ps with
  | nil => rfl
  | cons p t ih =>
    simp [defTriangles, isFillTriangle, List.filter_cons] at ih ⊢
    exact ih

lemma filter_defTriangles_ne {col col' : String} (h : col' ≠ col)
    (ps : List (Int × Int)) :
    (defTriangles col' ps).filter (isFillTriangle col) = [] := by
  induction ps with
  | nil => rfl
  | cons p t ih =>
    simp [defTriangles, isFillTriangle, List.filter_cons, h] at ih ⊢
    exact ih

lemma defTriangles_append (col : String) (a b : List (Int × Int)) :
    defTriangles col (a ++ b) = defTriangles col a ++ defTriangles col b := by
  simp [defTriangles]

lemma filter_DL_def (f c : String) :
    (generate_defensive_formation_svg f c).filter (isFillTriangle "#dc143c") =
      defTriangles "#dc143c" (layoutFor f).dl := by
  simp [generate_defensive_formation_svg, List.filter_append,
    filter_defTriangles_eq, adjustPositions_dl,
    filter_defTriangles_ne (show "#ff6347" ≠ "#dc143c" by decide),
    filter_defTriangles_ne (show "#ff4500" ≠ "#dc143c" by decide),
    filter_defTriangles_ne (show "#ff8c00" ≠ "#dc143c" by decide)]

lemma filter_LB_def (f c : String) :
    (generate_defensive_formation_svg f c).filter (isFillTriangle "#ff6347") =
      defTriangles "#ff6347" (layoutFor f).lb := by
  simp [generate_defensive_formation_svg, List.filter_append,
    filter_defTriangles_eq, adjustPositions_lb,
    filter_defTriangles_ne (show "#dc143c" ≠ "#ff6347" by decide),
    filter_defTriangles_ne (show "#ff4500" ≠ "#ff6347" by decide),
    filter_defTriangles_ne (show "#ff8c00" ≠ "#ff6347" by decide)]

lemma filter_CB_def (f c : String) :
    (generate_defensive_formation_svg f c).filter (isFillTriangle "#ff4500") =
      defTriangles "#ff4500" ((layoutFor f).cb ++ (layoutFor f).slotCb) := by
  simp [generate_defensive_formation_svg, List.filter_append,
    filter_defTriangles_eq, adjustPositions_cb, adjustPositions_slotCb,
    defTriangles_append,
    filter_defTriangles_ne (show "#dc143c" ≠ "#ff4500" by decide),
    filter_defTriangles_ne (show "#ff6347" ≠ "#ff4500" by decide),
    filter_defTriangles_ne (show "#ff8c00" ≠ "#ff4500" by decide)]

lemma filter_S_def (f c : String) :
    (generate_defensive_formation_svg f c).filter (isFillTriangle "#ff8c00") =
      defTriangles "#ff8c00" (adjustPositions c (layoutFor f)).s := by
  simp [generate_defensive_formation_svg, List.filter_append,
    filter_defTriangles_eq,
    filter_defTriangles_ne (show "#dc143c" ≠ "#ff8c00" by decide),
    filter_defTriangles_ne (show "#ff6347" ≠ "#ff8c00" by decide),
    filter_defTriangles_ne (show "#ff4500" ≠ "#ff8c00" by decide)]

lemma countP_zoneRect_def (f c : String) :
    (generate_defensive_formation_svg f c).countP isZoneRect = 0 := by
  simp [generate_defensive_formation_svg, List.countP_append, defTriangles,
    List.countP_map, Function.comp_def, isZoneRect]

lemma countP_hotspot_def (f c : String) :
    (generate_defensive_formation_svg f c).countP isHotspot = 0 := by
  simp [generate_defensive_formation_svg, List.countP_append, defTriangles,
    List.countP_map, Function.comp_def, isHotspot]

lemma countP_zoneRect_routes (c : String) :
    (generate_route_svg c).countP isZoneRect = 0 := by
  simp [generate_route_svg, List.countP_map, Function.comp_def, isZoneRect]

lemma countP_hotspot_routes (c : String) :
    (generate_route_svg c).countP isHotspot = 0 := by
  simp [generate_route_svg, List.countP_map, Function.comp_def, isHotspot]

lemma countP_zoneRect_off :
    (generate_offensive_formation_svg "pro").countP isZoneRect = 0 := by decide

lemma countP_hotspot_off :
    (generate_offensive_formation_svg "pro").countP isHotspot = 0 := by decide

/-- Back-to-front layer number of a fragment, following the compositing
order of `generate_play_diagram`. -/
def layerIndex : Svg → Nat
  | Svg.header => 0
  | Svg.field => 1
  | Svg.zoneRect .. => 2
  | Svg.hotspot .. => 3
  | Svg.offCircle .. => 4
  | Svg.offRect .. => 4
  | Svg.defTriangle .. => 5
  | Svg.routeLine .. => 6
  | Svg.close => 7

lemma layer_zones (c : String) :
    ∀ e ∈ generate_coverage_zones_svg c, layerIndex e = 2 := by
  intro e he
  simp [generate_coverage_zones_svg] at he
  obtain ⟨z, _, rfl⟩ := he
  rfl

lemma layer_spots (c : String) :
    ∀ e ∈ generate_soft_spots_svg c, layerIndex e = 3 := by
  intro e he
  simp [generate_soft_spots_svg] at he
  obtain ⟨sp, _, rfl⟩ := he
  rfl

lemma layer_off (f : String) :
    ∀ e ∈ generate_offensive_formation_svg f, layerIndex e = 4 := by
  intro e he
  simp [generate_offensive_formation_svg, offensivePositions] at he
  rcases he with h | h | h | h | h | h | h | h | h | h | h <;>
    simp [h, offMarker, layerIndex]

lemma layer_defTriangles (fill : String) (ps : List (Int × Int)) :
    ∀ e ∈ defTriangles fill ps, layerIndex e = 5 := by
  intro e he
  simp [defTriangles] at he
  obtain ⟨a, b, -, rfl⟩ := he
  rfl

lemma layer_def (f c : String) :
    ∀ e ∈ generate_defensive_formation_svg f c, layerIndex e = 5 := by
  intro e he
  simp only [generate_defensive_formation_svg, List.mem_append] at he
  rcases he with ((((h | h) | h) | h) | h) <;>
    exact layer_defTriangles _ _ _ h

lemma layer_routes (c : String) :
    ∀ e ∈ generate_route_svg c, layerIndex e = 6 := by
  intro e he
  simp [generate_route_svg] at he
  obtain ⟨r, _, rfl⟩ := he
  rfl

lemma pairwise_of_const {l : List Nat} {n : Nat} (h : ∀ x ∈ l, x = n) :
    l.Pairwise (· ≤ ·) := by
  induction l with
  | nil => simp
  | cons a t ih =>
    rw [List.pairwise_cons]
    refine ⟨fun b hb => ?_, ih fun x hx => h x (List.mem_cons_of_mem a hx)⟩
    rw [h a (List.mem_cons_self a t), h b (List.mem_cons_of_mem a hb)]

lemma append_const_pairwise {pre l : List Nat} {n : Nat}
    (h1 : pre.Pairwise (· ≤ ·)) (h2 : ∀ x ∈ pre, x ≤ n)
    (h3 : ∀ x ∈ l, x = n) :
    ((pre ++ l).Pairwise (· ≤ ·)) ∧ (∀ x ∈ pre ++ l, x ≤ n) := by
  constructor
  · refine List.pairwise_append.mpr ⟨h1, pairwise_of_const h3, ?_⟩
    intro a ha b hb
    rw [h3 b hb]
    exact h2 a ha
  · intro x hx
    rcases List.mem_append.mp hx with h | h
    · exact h2 x h
    · exact (h3 x h).le

lemma ub_mono {l : List Nat} {n m : Nat} (h : ∀ x ∈ l, x ≤ n) (hnm : n ≤ m) :
    ∀ x ∈ l, x ≤ m := fun x hx => (h x hx).trans hnm

lemma const_map_layer {l : List Svg} {n : Nat} (h : ∀ e ∈ l, layerIndex e = n) :
    ∀ x ∈ l.map layerIndex, x = n := by
  intro x hx
  obtain ⟨e, he, rfl⟩ := List.mem_map.mp hx
  exact h e he

lemma diagram_layers_pairwise (f c : String) (k : Option String) :
    ((generate_play_diagram f c k).map layerIndex).Pairwise (· ≤ ·) := by
  have main : ∀ (r : List Svg), (∀ e ∈ r, layerIndex e = 6) →
      ((([Svg.header, Svg.field] ++ generate_coverage_zones_svg c ++
        generate_soft_spots_svg c ++ generate_offensive_formation_svg "pro" ++
        generate_defensive_formation_svg f c ++ r ++ [Svg.close]).map
          layerIndex).Pairwise (· ≤ ·)) := by
    intro r hr
    have s0 : (([Svg.header, Svg.field].map layerIndex).Pairwise (· ≤ ·)) ∧
        ∀ x ∈ [Svg.header, Svg.field].map layerIndex, x ≤ 2 := by
      constructor
      · decide
      · decide
    have s1 := append_const_pairwise s0.1 s0.2 (const_map_layer (layer_zones c))
    have s2 := append_const_pairwise s1.1
      (ub_mono s1.2 (show (2:Nat) ≤ 3 by omega))
      (const_map_layer (layer_spots c))
    have s3 := append_const_pairwise s2.1
      (ub_mono s2.2 (show (3:Nat) ≤ 4 by omega))
      (const_map_layer (layer_off "pro"))
    have s4 := append_const_pairwise s3.1
      (ub_mono s3.2 (show (4:Nat) ≤ 5 by omega))
      (const_map_layer (layer_def f c))
    have s5 := append_const_pairwise s4.1
      (ub_mono s4.2 (show (5:Nat) ≤ 6 by omega))
      (const_map_layer hr)
    have s6 := append_const_pairwise s5.1
      (ub_mono s5.2 (show (6:Nat) ≤ 7 by omega))
      (const_map_layer
        (show ∀ e ∈ [Svg.close], layerIndex e = 7 by
          intro e he; simp at he; subst he; rfl))
    simpa [List.map_append, List.append_assoc] using s6.1
  cases k with
  | none =>
    have := main [] (by simp)
    simpa [generate_play_diagram] using this
  | some cKey =>
    by_cases h : cKey = ""
    · have := main [] (by simp)
      simpa [generate_play_diagram, h] using this
    · have := main (generate_route_svg cKey) (layer_routes cKey)
      simpa [generate_play_diagram, h] using this

/-! ## Claim theorems -/

/-- C1: for every formation key known to the layout table and every
coverage key (and any optional concept), the diagram returned by
`generate_play_diagram` is non-empty, contains the field layer, and
contains exactly as many defensive triangular markers as the total
number of positions across the formation's role groups (DL, LB, CB,
SLOT_CB, S), where the safety group is the coverage-adjusted one. -/
theorem claim_C1_marker_count (f c : String) (k : Option String)
    (hf : f ∈ basePositions.map Prod.fst) :
    generate_play_diagram f c k ≠ [] ∧
    Svg.field ∈ generate_play_diagram f c k ∧
    (generate_play_diagram f c k).countP isDefMarker =
      (layoutFor f).dl.length + (layoutFor f).lb.length +
      (layoutFor f).cb.length + (layoutFor f).slotCb.length +
      (adjustPositions c (layoutFor f)).s.length :=
  ⟨List.ne_nil_of_mem (field_mem_diagram f c k), field_mem_diagram f c k,
    countP_defMarker_diagram f c k⟩

/-- Witness for C1, instantiated at the known formation `"4-3"` with
coverage `"cover_2"`. -/
theorem claim_C1_marker_count_witness :
    ("4-3" ∈ basePositions.map Prod.fst) ∧
    (generate_play_diagram "4-3" "cover_2" none ≠ [] ∧
     Svg.field ∈ generate_play_diagram "4-3" "cover_2" none ∧
     (generate_play_diagram "4-3" "cover_2" none).countP isDefMarker =
       (layoutFor "4-3").dl.length + (layoutFor "4-3").lb.length +
       (layoutFor "4-3").cb.length + (layoutFor "4-3").slotCb.length +
       (adjustPositions "cover_2" (layoutFor "4-3")).s.length) :=
  ⟨by decide, claim_C1_marker_count "4-3" "cover_2" none (by decide)⟩

/-- C2: `generate_play_diagram "4-3" "cover_2"` with no concept yields
exactly 4 defensive-line markers, 3 linebacker markers, 2 cornerback
markers, 2 safety markers at the cover-2 adjusted coordinates (120,40)
and (280,40), 4 zone-overlay rectangles (of which 2 are tagged deep and
2 flat in the zone table), 3 hotspot annotations labelled
"Hole Shot", "Corner", "Corner", and no route segments. -/
theorem claim_C2_example_43_cover2 :
    (generate_play_diagram "4-3" "cover_2" none).countP
      (isFillTriangle "#dc143c") = 4 ∧
    (generate_play_diagram "4-3" "cover_2" none).countP
      (isFillTriangle "#ff6347") = 3 ∧
    (generate_play_diagram "4-3" "cover_2" none).countP
      (isFillTriangle "#ff4500") = 2 ∧
    (generate_play_diagram "4-3" "cover_2" none).filter
      (isFillTriangle "#ff8c00") =
      [Svg.defTriangle 120 40 "#ff8c00", Svg.defTriangle 280 40 "#ff8c00"] ∧
    (generate_play_diagram "4-3" "cover_2" none).countP isZoneRect = 4 ∧
    ((zonesTable.lookup "cover_2").getD []).countP
      (fun z => z.ztype == "deep") = 2 ∧
    ((zonesTable.lookup "cover_2").getD []).countP
      (fun z => z.ztype == "flat") = 2 ∧
    (generate_play_diagram "4-3" "cover_2" none).filter isHotspot =
      [Svg.hotspot 200 25 "Hole Shot", Svg.hotspot 70 15 "Corner",
       Svg.hotspot 330 15 "Corner"] ∧
    (generate_play_diagram "4-3" "cover_2" none).countP isRouteLine = 0 := by
  decide

/-- C3: `generate_play_diagram "dime" "cover_0" (some "mesh")` puts the
safety markers at the cover_0 box-alignment coordinates (180,95) and
(220,95), draws zero zone-overlay rectangles, exactly one hotspot
labelled "Deep - no help!", and exactly the 2 route-segment lines of the
mesh concept, whose table entries are both of type "cross". -/
theorem claim_C3_example_dime_cover0_mesh :
    (generate_play_diagram "dime" "cover_0" (some "mesh")).filter
      (isFillTriangle "#ff8c00") =
      [Svg.defTriangle 180 95 "#ff8c00", Svg.defTriangle 220 95 "#ff8c00"] ∧
    (generate_play_diagram "dime" "cover_0" (some "mesh")).countP
      isZoneRect = 0 ∧
    (generate_play_diagram "dime" "cover_0" (some "mesh")).filter isHotspot =
      [Svg.hotspot 200 30 "Deep - no help!"] ∧
    (generate_play_diagram "dime" "cover_0" (some "mesh")).filter
      isRouteLine =
      [Svg.routeLine 50 150 250 110, Svg.routeLine 350 150 150 110] ∧
    (generate_play_diagram "dime" "cover_0" (some "mesh")).filter
      isRouteLine =
      ((routesTable.lookup "mesh").getD []).map
        (fun r => Svg.routeLine r.fr.1 r.fr.2 r.dst.1 r.dst.2) ∧
    ((routesTable.lookup "mesh").getD []).all
      (fun r => r.rtype == "cross") = true := by
  decide

/-- C4: for every formation key not present in the layout table, the
lookup resolves to the designated default layout (never failing), and
the full diagram equals the one for formation `"4-3"` with the same
coverage and concept. -/
theorem claim_C4_unknown_formation (f c : String) (k : Option String)
    (hf : f ∉ basePositions.map Prod.fst) :
    layoutFor f = layout43 ∧
    generate_play_diagram f c k = generate_play_diagram "4-3" c k := by
  have hl : layoutFor f = layout43 := layoutFor_unknown hf
  have hdef : generate_defensive_formation_svg f c =
      generate_defensive_formation_svg "4-3" c := by
    simp [generate_defensive_formation_svg, hl,
      show layoutFor "4-3" = layout43 from rfl]
  refine ⟨hl, ?_⟩
  cases k with
  | none => simp [generate_play_diagram, hdef]
  | some cKey => by_cases h : cKey = "" <;>
      simp [generate_play_diagram, h, hdef]

/-- Witness for C4 at the unknown formation key `"5-2"`. -/
theorem claim_C4_unknown_formation_witness :
    ("5-2" ∉ basePositions.map Prod.fst) ∧
    (layoutFor "5-2" = layout43 ∧
     generate_play_diagram "5-2" "cover_3" none =
       generate_play_diagram "4-3" "cover_3" none) :=
  ⟨by decide, claim_C4_unknown_formation "5-2" "cover_3" none (by decide)⟩

/-- C5: for every coverage key absent from the zone, hotspot and
safety-adjustment tables, the zone-overlay and hotspot layers are empty
(both as layers and counted in the whole diagram), and the safety
markers of the defensive layer sit exactly at the base formation
layout's unadjusted safety positions. -/
theorem claim_C5_unknown_coverage (f c : String) (k : Option String)
    (hz : c ∉ zonesTable.map Prod.fst) (hs : c ∉ spotsTable.map Prod.fst)
    (ha : c ∉ adjustedCoverages) :
    generate_coverage_zones_svg c = [] ∧
    generate_soft_spots_svg c = [] ∧
    (generate_play_diagram f c k).countP isZoneRect = 0 ∧
    (generate_play_diagram f c k).countP isHotspot = 0 ∧
    (generate_defensive_formation_svg f c).filter (isFillTriangle "#ff8c00") =
      defTriangles "#ff8c00" (layoutFor f).s := by
  have h1 := zones_empty_of_unknown hz
  have h2 := spots_empty_of_unknown hs
  have hsafe : (generate_defensive_formation_svg f c).filter
      (isFillTriangle "#ff8c00") = defTriangles "#ff8c00" (layoutFor f).s := by
    rw [filter_S_def, adjustPositions_id _ ha]
  refine ⟨h1, h2, ?_, ?_, hsafe⟩ <;>
    cases k with
    | none =>
      simp [generate_play_diagram, h1, h2, List.countP_append,
        countP_zoneRect_def, countP_hotspot_def, countP_zoneRect_off,
        countP_hotspot_off, isZoneRect, isHotspot]
    | some cKey =>
      by_cases hk : cKey = "" <;>
        simp [generate_play_diagram, hk, h1, h2, List.countP_append,
          countP_zoneRect_def, countP_hotspot_def, countP_zoneRect_off,
          countP_hotspot_off, countP_zoneRect_routes, countP_hotspot_routes,
          isZoneRect, isHotspot]

/-- Witness for C5 at the unknown coverage key `"cover_9"`. -/
theorem claim_C5_unknown_coverage_witness :
    ("cover_9" ∉ zonesTable.map Prod.fst) ∧
    ("cover_9" ∉ spotsTable.map Prod.fst) ∧
    ("cover_9" ∉ adjustedCoverages) ∧
    (generate_coverage_zones_svg "cover_9" = [] ∧
     generate_soft_spots_svg "cover_9" = [] ∧
     (generate_play_diagram "4-3" "cover_9" none).countP isZoneRect = 0 ∧
     (generate_play_diagram "4-3" "cover_9" none).countP isHotspot = 0 ∧
     (generate_defensive_formation_svg "4-3" "cover_9").filter
       (isFillTriangle "#ff8c00") =
       defTriangles "#ff8c00" (layoutFor "4-3").s) :=
  ⟨by decide, by decide, by decide,
    claim_C5_unknown_coverage "4-3" "cover_9" none
      (by decide) (by decide) (by decide)⟩

/-- C6: for every concept key not present in the routes table, the route
layer is empty and the diagram is identical to the one produced with no
concept key at all. -/
theorem claim_C6_unknown_concept (f c key : String)
    (h : key ∉ routesTable.map Prod.fst) :
    generate_route_svg key = [] ∧
    generate_play_diagram f c (some key) =
      generate_play_diagram f c none := by
  have hr := routes_empty_of_unknown h
  refine ⟨hr, ?_⟩
  by_cases hk : key = "" <;> simp [generate_play_diagram, hk, hr]

/-- Witness for C6 at the unknown concept key `"bomb"`. -/
theorem claim_C6_unknown_concept_witness :
    ("bomb" ∉ routesTable.map Prod.fst) ∧
    (generate_route_svg "bomb" = [] ∧
     generate_play_diagram "4-3" "cover_2" (some "bomb") =
       generate_play_diagram "4-3" "cover_2" none) :=
  ⟨by decide, claim_C6_unknown_concept "4-3" "cover_2" "bomb" (by decide)⟩

/-- C7: for every formation, coverage and optional concept key, the
fragments of `generate_play_diagram` occur in the fixed back-to-front
order given by `layerIndex` (field background, zone overlays, hotspots,
offensive markers, defensive markers, then route segments): the layer
numbers along the document are pairwise non-decreasing. -/
theorem claim_C7_layer_order (f c : String) (k : Option String) :
    ((generate_play_diagram f c k).map layerIndex).Pairwise (· ≤ ·) :=
  diagram_layers_pairwise f c k

/-- C8: the coverage adjustment changes only the safety group: the DL,
LB, CB and SLOT_CB position sequences of the adjusted layout equal the
base formation layout's, and the drawn markers of those groups are
exactly the base layout's (the layout table itself is a constant of the
embedding and is never modified — `adjustPositions` returns a new
record). -/
theorem claim_C8_adjustment_frame (f c : String) :
    (adjustPositions c (layoutFor f)).dl = (layoutFor f).dl ∧
    (adjustPositions c (layoutFor f)).lb = (layoutFor f).lb ∧
    (adjustPositions c (layoutFor f)).cb = (layoutFor f).cb ∧
    (adjustPositions c (layoutFor f)).slotCb = (layoutFor f).slotCb ∧
    (generate_defensive_formation_svg f c).filter (isFillTriangle "#dc143c") =
      defTriangles "#dc143c" (layoutFor f).dl ∧
    (generate_defensive_formation_svg f c).filter (isFillTriangle "#ff6347") =
      defTriangles "#ff6347" (layoutFor f).lb ∧
    (generate_defensive_formation_svg f c).filter (isFillTriangle "#ff4500") =
      defTriangles "#ff4500" ((layoutFor f).cb ++ (layoutFor f).slotCb) :=
  ⟨adjustPositions_dl c _, adjustPositions_lb c _, adjustPositions_cb c _,
    adjustPositions_slotCb c _, filter_DL_def f c, filter_LB_def f c,
    filter_CB_def f c⟩

/-- C9: the offensive formation renderer is a constant function — its
output never varies with its `formation` argument, and is always the
fixed 11-position pro layout. -/
theorem claim_C9_offense_constant (a b : String) :
    generate_offensive_formation_svg a = generate_offensive_formation_svg b ∧
    (generate_offensive_formation_svg a).length = 11 :=
  ⟨rfl, rfl⟩

/-- C10: for every coverage key in one of the three recognized
adjustment groups, the adjusted safety coordinates depend only on the
coverage: any two formation keys produce identical safety marker lists,
even though the base layouts' safety positions differ (nickel and dime
place base safeties at different depths than 4-3). -/
theorem claim_C10_safeties_coverage_only (c f g : String)
    (h : c ∈ adjustedCoverages) :
    (adjustPositions c (layoutFor f)).s = (adjustPositions c (layoutFor g)).s ∧
    (generate_defensive_formation_svg f c).filter (isFillTriangle "#ff8c00") =
      (generate_defensive_formation_svg g c).filter
        (isFillTriangle "#ff8c00") ∧
    (layoutFor "nickel").s ≠ (layoutFor "4-3").s ∧
    (layoutFor "dime").s ≠ (layoutFor "4-3").s := by
  have hs : (adjustPositions c (layoutFor f)).s =
      (adjustPositions c (layoutFor g)).s := by
    rcases List.mem_append.mp h with h1 | h1
    · rcases List.mem_append.mp h1 with h2 | h2
      · rw [adjustPositions_s_twoDeep _ h2, adjustPositions_s_twoDeep _ h2]
      · rw [adjustPositions_s_singleHigh _ h2,
          adjustPositions_s_singleHigh _ h2]
    · simp at h1
      subst h1
      rw [adjustPositions_s_cover0, adjustPositions_s_cover0]
  refine ⟨hs, ?_, by decide, by decide⟩
  rw [filter_S_def, filter_S_def, hs]

/-- Witness for C10: cover_2 renders nickel and 4-3 safeties
identically. -/
theorem claim_C10_safeties_coverage_only_witness :
    ("cover_2" ∈ adjustedCoverages) ∧
    ((adjustPositions "cover_2" (layoutFor "nickel")).s =
       (adjustPositions "cover_2" (layoutFor "4-3")).s ∧
     (generate_defensive_formation_svg "nickel" "cover_2").filter
       (isFillTriangle "#ff8c00") =
       (generate_defensive_formation_svg "4-3" "cover_2").filter
         (isFillTriangle "#ff8c00") ∧
     (layoutFor "nickel").s ≠ (layoutFor "4-3").s ∧
     (layoutFor "dime").s ≠ (layoutFor "4-3").s) :=
  ⟨by decide,
    claim_C10_safeties_coverage_only "cover_2" "nickel" "4-3" (by decide)⟩

end Playbook
